import Mathlib

/-!
Verification of `custom_components/goodwe/coordinator.py`.

Shallow embedding conventions:
* Python dicts are association lists with unique keys; `dict.get` is
  lookup, `d[k] = v` is `dictSet`, `d.pop(k, None)` is `dictPop`.
* Sensor values are `Option Int` (`none` models Python `None`); a stored
  `None` and a missing key are indistinguishable through `dict.get`.
* The device client (the external `goodwe` library) is an environment
  parameter: the outcome of each network call is passed in.
* `async` exceptions are `Except`: a raised exception is `.error`, a
  normal return is `.ok`.  Logging is a pure no-op and is not modelled.
-/

namespace Goodwe

/-- A sensor value as stored in the telemetry dict: numeric or `None`. -/
abbrev Value := Option Int

/-- A telemetry snapshot: a Python dict from sensor id to value. -/
abbrev Snap := List (String × Value)

/-- Python truthiness of a sensor value: `None` and `0` are falsy. -/
def Value.truthy : Value → Bool
  | none => false
  | some v => v != 0

/-- `d[a] = b` on a Python dict: replace the entry for key `a` if present
(dict keys are unique, so at most the first occurrence), else append. -/
def dictSet {α β : Type} [DecidableEq α] : List (α × β) → α → β → List (α × β)
  | [], a, b => [(a, b)]
  | (a', b') :: rest, a, b =>
    if a' = a then (a, b) :: rest else (a', b') :: dictSet rest a b

/-- `d.pop(a, None)` on a Python dict: remove the entry for key `a`. -/
def dictPop {α β : Type} [DecidableEq α] (d : List (α × β)) (a : α) : List (α × β) :=
  d.filter (fun p => decide (p.1 ≠ a))

/-- `d.get(k)` on a telemetry dict: the stored value if the key is present,
else `None` (a stored `None` reads the same as a missing key). -/
def snapGet (d : Snap) (k : String) : Value :=
  match List.lookup k d with
  | some v => v
  | none => none

/-- Errors raised by the goodwe device client: `RequestFailedException`
(a subclass of `InverterError` carrying the consecutive-failures counter)
or any other `InverterError`. -/
inductive InvError : Type
  | requestFailed (consecutive_failures_count : Nat)
  | other
  deriving DecidableEq

/-- The `UpdateFailed` condition surfaced to the host, and the case of an
exception escaping `_async_update_data` outside the `try` block. -/
inductive CycleError : Type
  | updateFailed (cause : InvError)
  | uncaught (e : InvError)
  deriving DecidableEq

/-- A secondary-polled entity (`BaseCoordinatorEntity`), identified opaquely. -/
abbrev Entity := Nat

/-- State of a `GoodweUpdateCoordinator`:
`data` is the framework-held snapshot (`None` before the first successful
refresh), `last_data` is `self._last_data`, `polled_entities` is
`self._polled_entities` (entity to polling interval). -/
structure CoordState where
  data : Option Snap
  last_data : Snap
  polled_entities : List (Entity × Nat)
  deriving DecidableEq

/-- `_update_polled_entities`: for every registered entity whose interval is
truthy (nonzero), await `entity.async_update()`; an `InverterError` from one
entity is logged and the loop continues with the next entity.  `env` gives
each entity's update outcome; the result lists the entities whose update was
invoked, and an exception escaping the loop would surface as `.error`. -/
def _update_polled_entities (env : Entity → Except InvError Unit) :
    List (Entity × Nat) → Except InvError (List Entity)
  | [] => .ok []
  | (entity, interval) :: rest =>
    if interval ≠ 0 then
      match env entity with
      | .ok _ => (_update_polled_entities env rest).map (fun l => entity :: l)
      | .error _ => (_update_polled_entities env rest).map (fun l => entity :: l)
    else
      _update_polled_entities env rest

/-- `self.data if self.data else \x7b\x7d`: Python truthiness on the optional
snapshot — `None` and the empty dict are falsy and yield the empty dict. -/
def orEmptyDict (o : Option Snap) : Snap :=
  match o with
  | some d => if d.isEmpty then [] else d
  | none => []

/-- `_async_update_data`: refresh the secondary entities, rotate `last_data`
from the pre-cycle snapshot, then handle the primary read (`read` is the
outcome of `inverter.read_runtime_data()`).  A `RequestFailedException` with
a streak below 3 is tolerated by returning the last known data; a longer
streak, or any other `InverterError`, raises `UpdateFailed` to the host. -/
def _async_update_data (s : CoordState) (env : Entity → Except InvError Unit)
    (read : Except InvError Snap) : CoordState × Except CycleError Snap :=
  match _update_polled_entities env s.polled_entities with
  | .error e => (s, .error (.uncaught e))
  | .ok _ =>
    let s' : CoordState := { s with last_data := orEmptyDict s.data }
    match read with
    | .ok new_data => (s', .ok new_data)
    | .error (.requestFailed n) =>
      if n < 3 then
        (s', .ok s'.last_data)
      else
        (s', .error (.updateFailed (.requestFailed n)))
    | .error .other => (s', .error (.updateFailed .other))

/-- Errors a Python dict operation raises when `self.data` is still `None`:
`AttributeError` from `None.get(...)` or `TypeError` from `None[k] = v`. -/
inductive PyError : Type
  | noneType
  deriving DecidableEq

/-- `sensor_value`: answer current (or last known) value of the sensor. -/
def sensor_value (s : CoordState) (sensor : String) : Except PyError Value :=
  match s.data with
  | none => .error .noneType
  | some d =>
    let val := snapGet d sensor
    .ok (if val ≠ none then val else snapGet s.last_data sensor)

/-- `total_sensor_value`: answer current value of the "total" (never 0)
sensor, falling back to the last known value on a falsy current value. -/
def total_sensor_value (s : CoordState) (sensor : String) : Except PyError Value :=
  match s.data with
  | none => .error .noneType
  | some d =>
    let val := snapGet d sensor
    .ok (if Value.truthy val then val else snapGet s.last_data sensor)

/-- `reset_sensor`: set `self._last_data[sensor] = 0`, then
`self.data[sensor] = 0` (which raises if `self.data` is still `None`). -/
def reset_sensor (s : CoordState) (sensor : String) : CoordState × Except PyError Unit :=
  let s1 : CoordState := { s with last_data := dictSet s.last_data sensor (some 0) }
  match s1.data with
  | none => (s1, .error .noneType)
  | some d => ({ s1 with data := some (dictSet d sensor (some 0)) }, .ok ())

/-- `entity_state_polling`: enable/disable polling of entity state — a
truthy (nonzero) interval inserts or updates the registry entry, a zero
interval pops the entity from the registry. -/
def entity_state_polling (s : CoordState) (entity : Entity) (interval : Nat) : CoordState :=
  if interval ≠ 0 then
    { s with polled_entities := dictSet s.polled_entities entity interval }
  else
    { s with polled_entities := dictPop s.polled_entities entity }

/-- State of a `GoodweUpdateCoordinatorWithWakeUp` beyond the base
coordinator: `self._cancel_wakeup_interval`, the cancel handle returned by
`async_track_time_interval` (`None` until armed). -/
structure WakeUpState where
  cancel_wakeup_interval : Option Nat
  deriving DecidableEq

/-- Observable effects of `_start_wakeup_interval` (a synchronous method
run on the one-time `EVENT_HOMEASSISTANT_STARTED` signal). -/
inductive ArmEffect : Type
  | track_time_interval (minutes : Nat) (name : String)
  | coroutine_created_not_awaited (name : String)
  | wakeup_send_executed
  deriving DecidableEq

/-- `_start_wakeup_interval`: store the cancel handle of a repeating
10-minute `async_track_time_interval` timer whose action awaits
`_send_wakeup_packet`; then the bare call `self._send_wakeup_packet()` —
made without `await` (the method is synchronous and cannot await) and
without scheduling a task — only creates a coroutine object that is
discarded, so no wake-up send executes at arm time. -/
def _start_wakeup_interval (st : WakeUpState) (handle : Nat) : WakeUpState × List ArmEffect :=
  ({ st with cancel_wakeup_interval := some handle },
    [ArmEffect.track_time_interval 10 "goodwe_inverter_send_wakeup_packet",
     ArmEffect.coroutine_created_not_awaited "_send_wakeup_packet"])

/-- Observable effects of `async_shutdown`: invoking the stored cancel
handle; creating (without awaiting) the base-class shutdown coroutine;
and actually running the base-class shutdown body. -/
inductive ShutdownEffect : Type
  | cancel_timer (handle : Nat)
  | base_coroutine_created_not_awaited
  | base_shutdown_executed
  deriving DecidableEq

/-- `async_shutdown`: if a cancel handle is stored, invoke it and clear the
reference; then `return super().async_shutdown()` — since the base method
is itself an `async def`, this expression only creates the base-class
coroutine and returns it unawaited (callers `await coordinator.async_shutdown()`
and discard the returned value), so the base shutdown body never executes. -/
def async_shutdown (st : WakeUpState) : WakeUpState × List ShutdownEffect :=
  match st.cancel_wakeup_interval with
  | some h =>
    ({ cancel_wakeup_interval := none },
      [ShutdownEffect.cancel_timer h, ShutdownEffect.base_coroutine_created_not_awaited])
  | none => (st, [ShutdownEffect.base_coroutine_created_not_awaited])

/-- The parameters of the `UdpInverterProtocol` built for the wake-up send. -/
structure UdpProtocolParams where
  host : String
  port : Nat
  comm_addr : Nat
  timeout : Nat
  deriving DecidableEq

/-- One `ProtocolCommand.execute` call against the device client: the
request payload and the protocol parameters it was sent with. -/
structure SendAttempt where
  request : String
  params : UdpProtocolParams
  deriving DecidableEq

/-- Outcome of a `ProtocolCommand.execute` call: a response, `None`, or an
`asyncio.CancelledError` raised during the send. -/
inductive ExecOutcome : Type
  | response (raw_data : String)
  | noResponse
  | cancelled
  deriving DecidableEq

/-- The `asyncio.CancelledError` exception. -/
inductive Cancelled : Type
  | cancelled
  deriving DecidableEq

/-- The single send attempt made by `_send_wakeup_packet`: the
`ProtocolCommand` payload `"WIFIKIT-214028-READ"` (utf-8, accepting any
response) over `UdpInverterProtocol(host, port=48899, comm_addr=1,
timeout=1)`. -/
def wakeupSend (host : String) : SendAttempt :=
  { request := "WIFIKIT-214028-READ",
    params := { host := host, port := 48899, comm_addr := 1, timeout := 1 } }

/-- `_send_wakeup_packet`: execute the wake-up command once; log the
response or its absence; catch and log `asyncio.CancelledError`.  The
second component records the executed send attempts; a cancellation
escaping the method would surface as `.error`. -/
def _send_wakeup_packet (host : String) (device : SendAttempt → ExecOutcome) :
    Except Cancelled Unit × List SendAttempt :=
  match device (wakeupSend host) with
  | .response _ => (.ok (), [wakeupSend host])
  | .noResponse => (.ok (), [wakeupSend host])
  | .cancelled => (.ok (), [wakeupSend host])

/-! ### Helper lemmas -/

theorem _update_polled_entities_eq (env : Entity → Except InvError Unit)
    (l : List (Entity × Nat)) :
    _update_polled_entities env l =
      Except.ok ((l.filter (fun p => decide (p.2 ≠ 0))).map Prod.fst) := by
  induction l with
  | nil => rfl
  | cons hd tl ih =>
    obtain ⟨entity, interval⟩ := hd
    by_cases h : interval ≠ 0
    · cases he : env entity <;> simp [_update_polled_entities, h, he, ih, Except.map]
    · simp at h
      simp [_update_polled_entities, h, ih]

theorem orEmptyDict_eq (o : Option Snap) : orEmptyDict o = o.getD [] := by
  cases o with
  | none => rfl
  | some d => cases d <;> rfl

theorem lookup_dictSet {α β : Type} [DecidableEq α] (l : List (α × β)) (a : α) (b : β) :
    List.lookup a (dictSet l a b) = some b := by
  induction l with
  | nil => simp [dictSet, List.lookup]
  | cons hd tl ih =>
    obtain ⟨a', b'⟩ := hd
    by_cases h : a' = a
    · simp [dictSet, h, List.lookup]
    · have hba : (a == a') = false := by
        simp only [beq_eq_false_iff_ne]
        exact fun hc => h hc.symm
      simp [dictSet, h, List.lookup, hba, ih]

theorem lookup_dictPop {α β : Type} [DecidableEq α] (l : List (α × β)) (a : α) :
    List.lookup a (dictPop l a) = none := by
  induction l with
  | nil => rfl
  | cons hd tl ih =>
    obtain ⟨a', b'⟩ := hd
    by_cases h : a' = a
    · simpa [dictPop, h] using ih
    · have hba : (a == a') = false := by
        simp only [beq_eq_false_iff_ne]
        exact fun hc => h hc.symm
      simpa [dictPop, h, List.lookup, hba] using ih

theorem dictSet_idem {α β : Type} [DecidableEq α] (l : List (α × β)) (a : α) (b : β) :
    dictSet (dictSet l a b) a b = dictSet l a b := by
  induction l with
  | nil => simp [dictSet]
  | cons hd tl ih =>
    obtain ⟨a', b'⟩ := hd
    by_cases h : a' = a
    · simp [dictSet, h]
    · simp [dictSet, h, ih]

theorem dictPop_idem {α β : Type} [DecidableEq α] (l : List (α × β)) (a : α) :
    dictPop (dictPop l a) a = dictPop l a := by
  simp [dictPop, List.filter_filter]

theorem not_mem_dictPop_keys {α β : Type} [DecidableEq α] (l : List (α × β)) (a : α) :
    a ∉ (dictPop l a).map Prod.fst := by
  intro hmem
  rcases List.mem_map.mp hmem with ⟨p, hp, hfst⟩
  simp only [dictPop] at hp
  rcases List.mem_filter.mp hp with ⟨_, hdec⟩
  exact of_decide_eq_true hdec hfst

theorem snapGet_dictSet (d : Snap) (k : String) (v : Value) :
    snapGet (dictSet d k v) k = v := by
  simp [snapGet, lookup_dictSet]

/-! ### Claims -/

/-- Claim C1: when the primary read fails with a consecutive-failure streak
strictly below 3, the cycle surfaces no failure and returns exactly the
snapshot that was current before the cycle began (the empty mapping when no
snapshot was set). -/
theorem transient_failure_returns_previous_snapshot (s : CoordState)
    (env : Entity → Except InvError Unit) (n : Nat) (h : n < 3) :
    (_async_update_data s env (Except.error (InvError.requestFailed n))).2 =
      Except.ok (s.data.getD []) := by
  simp [_async_update_data, _update_polled_entities_eq, orEmptyDict_eq, h]

theorem transient_failure_returns_previous_snapshot_witness :
    (_async_update_data
        { data := some [("ppv", some 500)], last_data := [], polled_entities := [] }
        (fun _ => Except.ok ()) (Except.error (InvError.requestFailed 1))).2 =
      Except.ok ((some [("ppv", some 500)] : Option Snap).getD []) :=
  transient_failure_returns_previous_snapshot _ _ 1 (by decide)

/-- Claim C2: when the primary read fails with a streak of 3 or more, or
with any other inverter error, the cycle raises `UpdateFailed` carrying the
underlying error, and the state is exactly what the lastKnown-rotation of
this same cycle set: `data` untouched, `last_data` holding the pre-cycle
snapshot, the registry untouched. -/
theorem sustained_failure_escalates (s : CoordState)
    (env : Entity → Except InvError Unit) (e : InvError)
    (h : ∀ n, e = InvError.requestFailed n → 3 ≤ n) :
    _async_update_data s env (Except.error e) =
      ({ s with last_data := s.data.getD [] },
        Except.error (CycleError.updateFailed e)) := by
  cases e with
  | requestFailed n =>
    have h3 : ¬ n < 3 := by
      have := h n rfl
      omega
    simp [_async_update_data, _update_polled_entities_eq, orEmptyDict_eq, h3]
  | other =>
    simp [_async_update_data, _update_polled_entities_eq, orEmptyDict_eq]

theorem sustained_failure_escalates_witness :
    _async_update_data
        { data := some [("ppv", some 500)], last_data := [], polled_entities := [] }
        (fun _ => Except.ok ()) (Except.error (InvError.requestFailed 3)) =
      ({ data := some [("ppv", some 500)], last_data := [("ppv", some 500)],
          polled_entities := [] },
        Except.error (CycleError.updateFailed (InvError.requestFailed 3))) :=
  sustained_failure_escalates _ _ (InvError.requestFailed 3)
    (fun n hn => by injection hn with h; omega)

/-- Claim C3: `sensor_value` answers the current value when present and
non-null, else the last-known value, else null — so it is never null when
either snapshot has a non-null value — and `total_sensor_value` follows the
same rule except that a zero current value also falls back to last-known. -/
theorem sensor_value_fallback (s : CoordState) (d : Snap) (id : String)
    (hd : s.data = some d) :
    (∀ v : Int, snapGet d id = some v → sensor_value s id = Except.ok (some v)) ∧
    (snapGet d id = none → sensor_value s id = Except.ok (snapGet s.last_data id)) ∧
    (sensor_value s id = Except.ok none →
      snapGet d id = none ∧ snapGet s.last_data id = none) ∧
    (∀ v : Int, snapGet d id = some v → v ≠ 0 →
      total_sensor_value s id = Except.ok (some v)) ∧
    ((snapGet d id = none ∨ snapGet d id = some 0) →
      total_sensor_value s id = Except.ok (snapGet s.last_data id)) := by
  refine ⟨?_, ?_, ?_, ?_, ?_⟩
  · intro v hv
    simp [sensor_value, hd, hv]
  · intro hv
    simp [sensor_value, hd, hv]
  · intro hres
    by_cases hv : snapGet d id = none
    · refine ⟨hv, ?_⟩
      simpa [sensor_value, hd, hv] using hres
    · exfalso
      obtain ⟨v, hv'⟩ := Option.ne_none_iff_exists'.mp hv
      simp [sensor_value, hd, hv'] at hres
  · intro v hv hv0
    simp [total_sensor_value, hd, hv, Value.truthy, hv0]
  · intro hv
    rcases hv with hv | hv <;> simp [total_sensor_value, hd, hv, Value.truthy]

theorem sensor_value_fallback_witness :
    total_sensor_value
        { data := some [("e_total", some 0)], last_data := [("e_total", some 4)],
          polled_entities := [] } "e_total" =
      Except.ok (some 4) :=
  (sensor_value_fallback _ [("e_total", some 0)] "e_total" rfl).2.2.2.2 (Or.inr rfl)

/-- Claim C4: the secondary refresh loop of a cycle invokes every
registered entity with a nonzero interval, in registry order, whatever
each update's outcome, and always returns normally: a device error from
one entity is swallowed where it occurs and neither aborts the loop nor
skips the remaining entities. -/
theorem secondary_refresh_failures_swallowed (env : Entity → Except InvError Unit)
    (polled : List (Entity × Nat)) :
    _update_polled_entities env polled =
      Except.ok ((polled.filter (fun p => decide (p.2 ≠ 0))).map Prod.fst) :=
  _update_polled_entities_eq env polled

/-- Claim C5 (code slip): arming on the ready signal stores the cancel
handle and schedules the repeating 10-minute wake-up timer, but the
"immediate" send is only a coroutine object that is created and discarded
— no wake-up send executes at arm time. -/
theorem arm_schedules_timer_but_sends_no_immediate_wakeup :
    (_start_wakeup_interval { cancel_wakeup_interval := none } 0).1.cancel_wakeup_interval =
      some 0 ∧
    (_start_wakeup_interval { cancel_wakeup_interval := none } 0).2 =
      [ArmEffect.track_time_interval 10 "goodwe_inverter_send_wakeup_packet",
        ArmEffect.coroutine_created_not_awaited "_send_wakeup_packet"] ∧
    ArmEffect.wakeup_send_executed ∉
      (_start_wakeup_interval { cancel_wakeup_interval := none } 0).2 := by
  refine ⟨rfl, rfl, ?_⟩
  simp [_start_wakeup_interval]

/-- Claim C6: the wake-up send executes exactly one attempt, carrying the
literal payload "WIFIKIT-214028-READ" to port 48899 with communication
address 1 and a 1-second timeout, and returns normally on every device
outcome — in particular a cancellation raised during the send is caught
and logged at that call site, never escalated. -/
theorem wakeup_send_payload_and_cancellation (host : String)
    (device : SendAttempt → ExecOutcome) :
    (_send_wakeup_packet host device).1 = Except.ok () ∧
    (_send_wakeup_packet host device).2 =
      [{ request := "WIFIKIT-214028-READ",
          params := { host := host, port := 48899, comm_addr := 1, timeout := 1 } }] := by
  unfold _send_wakeup_packet
  cases device (wakeupSend host) <;> exact ⟨rfl, rfl⟩

/-- Claim C7 (code slip): shutting down an armed sender does invoke the
stored timer-cancel handle and clears the reference first — so no further
wake-up fires — and a never-armed shutdown is a no-op on the handle state;
but the claimed delegation to the base shutdown never happens:
`return super().async_shutdown()` only creates the base-class coroutine
and returns it unawaited, so the base shutdown body never executes. -/
theorem shutdown_cancels_timer_but_base_shutdown_never_runs :
    async_shutdown { cancel_wakeup_interval := some 5 } =
      ({ cancel_wakeup_interval := none },
        [ShutdownEffect.cancel_timer 5,
          ShutdownEffect.base_coroutine_created_not_awaited]) ∧
    async_shutdown { cancel_wakeup_interval := none } =
      ({ cancel_wakeup_interval := none },
        [ShutdownEffect.base_coroutine_created_not_awaited]) ∧
    ShutdownEffect.base_shutdown_executed ∉
      (async_shutdown { cancel_wakeup_interval := some 5 }).2 ∧
    ShutdownEffect.base_shutdown_executed ∉
      (async_shutdown { cancel_wakeup_interval := none }).2 := by
  refine ⟨rfl, rfl, ?_, ?_⟩ <;> simp [async_shutdown]

/-- Claim C8: `reset_sensor` forces the sensor to zero in both snapshots,
and a subsequent `sensor_value` call with no intervening successful read
answers zero. -/
theorem reset_sensor_zeroes_both_snapshots (s : CoordState) (d : Snap) (id : String)
    (hd : s.data = some d) :
    (reset_sensor s id).2 = Except.ok () ∧
    snapGet (reset_sensor s id).1.last_data id = some 0 ∧
    (reset_sensor s id).1.data = some (dictSet d id (some 0)) ∧
    snapGet (dictSet d id (some 0)) id = some 0 ∧
    sensor_value (reset_sensor s id).1 id = Except.ok (some 0) := by
  refine ⟨?_, ?_, ?_, ?_, ?_⟩ <;>
    simp [reset_sensor, sensor_value, hd, snapGet_dictSet]

theorem reset_sensor_zeroes_both_snapshots_witness :
    sensor_value
        (reset_sensor
          { data := some [("e_day", some 9)], last_data := [("e_day", some 9)],
            polled_entities := [] } "e_day").1 "e_day" =
      Except.ok (some 0) :=
  (reset_sensor_zeroes_both_snapshots _ [("e_day", some 9)] "e_day" rfl).2.2.2.2

/-- Claim C9: a nonzero interval inserts or updates the consumer's registry
entry, a zero interval removes the consumer, both idempotently, and after
removal the secondary refresh loop of any later cycle never invokes that
consumer's update. -/
theorem entity_state_polling_registry (s : CoordState) (e : Entity) (i : Nat) :
    (i ≠ 0 → List.lookup e (entity_state_polling s e i).polled_entities = some i) ∧
    (List.lookup e (entity_state_polling s e 0).polled_entities = none) ∧
    (entity_state_polling (entity_state_polling s e i) e i = entity_state_polling s e i) ∧
    (∀ (env : Entity → Except InvError Unit) (invoked : List Entity),
      _update_polled_entities env (entity_state_polling s e 0).polled_entities =
        Except.ok invoked → e ∉ invoked) := by
  have hpop : (entity_state_polling s e 0).polled_entities = dictPop s.polled_entities e := by
    simp [entity_state_polling]
  refine ⟨?_, ?_, ?_, ?_⟩
  · intro hi
    simp [entity_state_polling, hi, lookup_dictSet]
  · rw [hpop]
    exact lookup_dictPop s.polled_entities e
  · by_cases hi : i ≠ 0
    · simp [entity_state_polling, hi, dictSet_idem]
    · simp at hi
      simp [entity_state_polling, hi, dictPop_idem]
  · intro env invoked hrun hmem
    rw [hpop, _update_polled_entities_eq] at hrun
    injection hrun with hinv
    rw [← hinv] at hmem
    rcases List.mem_map.mp hmem with ⟨q, hq, hfst⟩
    exact not_mem_dictPop_keys s.polled_entities e
      (List.mem_map.mpr ⟨q, (List.mem_filter.mp hq).1, hfst⟩)

theorem entity_state_polling_registry_witness :
    List.lookup 7
        (entity_state_polling
          { data := none, last_data := [], polled_entities := [] } 7 30).polled_entities =
      some 30 :=
  (entity_state_polling_registry _ 7 30).1 (by decide)

/-- Claim C10: before the first completed refresh cycle (the current
snapshot still unset), the consumer operations fail instead of answering:
both lookups raise, and `reset_sensor` raises without zeroing the current
snapshot — the lookup and reset contracts need a completed cycle. -/
theorem lookups_require_completed_cycle (s : CoordState) (id : String)
    (h : s.data = none) :
    sensor_value s id = Except.error PyError.noneType ∧
    total_sensor_value s id = Except.error PyError.noneType ∧
    (reset_sensor s id).2 = Except.error PyError.noneType ∧
    (reset_sensor s id).1.data = none := by
  refine ⟨?_, ?_, ?_, ?_⟩ <;>
    simp [sensor_value, total_sensor_value, reset_sensor, h]

theorem lookups_require_completed_cycle_witness :
    sensor_value
        { data := none, last_data := [("ppv", some 500)], polled_entities := [] } "ppv" =
      Except.error PyError.noneType :=
  (lookups_require_completed_cycle _ "ppv" rfl).1

end Goodwe
